import Mathlib

set_option maxRecDepth 10000

/- =============================================================================
   Verification development for the mri-recon-portal reconstruction pipeline.

   Shallow embedding of the Python modules
     backend/app/processing/mesh.py
     backend/app/processing/segment.py
     backend/app/processing/preprocess.py
     backend/app/processing/pipeline.py
     backend/app/worker/reconstruction_v2.py
   over exact rational arithmetic: IEEE floating point values are idealized
   as rationals (all concrete inputs used below are dyadic and every
   operation on them is exact in float64 as well), machine integers as ℤ/ℕ,
   numpy arrays as nested lists, and fallible code as Except/Option.
   ============================================================================= -/

/- ---------------------------------------------------------------------------
   Small linear-algebra helpers: 3-vectors and 3x3 matrices over ℚ.
   --------------------------------------------------------------------------- -/

/-- A 3-vector of rationals, components accessed as `.1`, `.2.1`, `.2.2`. -/
abbrev Vec3 : Type := ℚ × ℚ × ℚ

/-- A 3x3 matrix over ℚ, stored as its three rows. -/
abbrev Mat3 : Type := Vec3 × Vec3 × Vec3

/-- Matrix-vector product. -/
def matVec (m : Mat3) (v : Vec3) : Vec3 :=
  (m.1.1 * v.1 + m.1.2.1 * v.2.1 + m.1.2.2 * v.2.2,
   m.2.1.1 * v.1 + m.2.1.2.1 * v.2.1 + m.2.1.2.2 * v.2.2,
   m.2.2.1 * v.1 + m.2.2.2.1 * v.2.1 + m.2.2.2.2 * v.2.2)

/-- Componentwise vector sum. -/
def vecAdd (a b : Vec3) : Vec3 := (a.1 + b.1, a.2.1 + b.2.1, a.2.2 + b.2.2)

/-- The identity 3x3 matrix. -/
def matId : Mat3 := ((1, 0, 0), (0, 1, 0), (0, 0, 1))

/-- The zero 3-vector. -/
def vec0 : Vec3 := (0, 0, 0)

/- ---------------------------------------------------------------------------
   mesh.py — vertex coordinate transforms (claim C1).
   --------------------------------------------------------------------------- -/

/-- Vertex post-processing of `mesh_from_mask` (mesh.py lines 55-61).
The input vertex `v` comes from `skimage.measure.marching_cubes`, hence in
array index order `(z, y, x)`: `v.1 = z`, `v.2.1 = y`, `v.2.2 = x`.  The code
sets `p_three = (-verts[:,0], verts[:,2], verts[:,1])` and scales by `0.001`;
it performs no index swap and never applies a direction matrix or origin. -/
def mesh_from_mask_vertex (v : Vec3) : Vec3 :=
  ((-v.1) * (1/1000), v.2.2 * (1/1000), v.2.1 * (1/1000))

/-- Vertex post-processing of `mask_to_mesh` (mesh.py lines 146-163).
The `(z, y, x)` marching-cubes vertex is reindexed to `(x, y, z)`
(`verts[:, [2, 1, 0]]`), mapped by `p_lps = direction @ v + origin`, and then
emitted as `(-p_lps[0], p_lps[2], p_lps[1]) * 0.001`. -/
def mask_to_mesh_vertex (direction : Mat3) (origin : Vec3) (v : Vec3) : Vec3 :=
  let vxyz : Vec3 := (v.2.2, v.2.1, v.1)
  let p : Vec3 := vecAdd (matVec direction vxyz) origin
  ((-p.1) * (1/1000), p.2.2 * (1/1000), p.2.1 * (1/1000))

/-- Modelled from the spec: the mandated vertex mapping for every
mask-to-mesh operation — swap the `(z, y, x)` marching-cubes vertex to
`(x, y, z)`, map to the patient frame by `p_lps = D · v + origin`, convert
to the render-space frame `x_out = -L, y_out = S, z_out = P`, and scale
millimeters to meters by `0.001`. -/
def spec_vertex_transform (direction : Mat3) (origin : Vec3) (v : Vec3) : Vec3 :=
  let vxyz : Vec3 := (v.2.2, v.2.1, v.1)
  let p : Vec3 := vecAdd (matVec direction vxyz) origin
  ((-p.1) * (1/1000), p.2.2 * (1/1000), p.2.1 * (1/1000))

/- ---------------------------------------------------------------------------
   mesh.py — marching-cubes step sizes (claim C3).
   --------------------------------------------------------------------------- -/

/-- Step-size logic of `mesh_from_mask` (mesh.py lines 44-52).  The argument
is the parsed integer value of the `MC_STEP_SIZE` environment variable
(`none` when unset; the source parses it with `int`, default `"1"`).  Any
value other than 1 is overridden to 1 with a warning.  Returns the step
size actually passed to `marching_cubes`, paired with whether the override
warning fired. -/
def mesh_from_mask_step (mcStepSizeEnv : Option ℤ) : ℤ × Bool :=
  if mcStepSizeEnv.getD 1 ≠ 1 then (1, true) else (mcStepSizeEnv.getD 1, false)

/-- Step size `mask_to_mesh` passes to its first `marching_cubes` call
(mesh.py lines 129-131): the literal `step_size=2`. -/
def mask_to_mesh_step : ℤ := 2

/-- Step size of `mask_to_mesh`'s level-adjusted retry (mesh.py lines
138-140): the call omits `step_size`, so the skimage default 1 applies. -/
def mask_to_mesh_retry_step : ℤ := 1

/- ---------------------------------------------------------------------------
   mesh.py — the small-mask guard and the empty-mask head (claims C10, C8).
   --------------------------------------------------------------------------- -/

/-- Number of set voxels in a 3D boolean mask (the exact value of
`mask.astype(np.float32).sum()` for the mask sizes the pipeline handles). -/
def countTrue3 (m : List (List (List Bool))) : ℕ :=
  (m.map (fun p => (p.map (fun r => r.countP (· = true))).sum)).sum

/-- Size guard at the head of `mesh_from_mask` (mesh.py lines 31-33): the
function raises `ValueError("Mask too small for mesh.")` before any geometry
is built whenever the mask has fewer than 2000 set voxels, and otherwise
proceeds past the guard. -/
def mesh_from_mask_guard (mask : List (List (List Bool))) : Except String Unit :=
  if (countTrue3 mask : ℚ) < 2000 then .error "Mask too small for mesh." else .ok ()

/-- Outcome of the empty-mask check at the head of `mask_to_mesh`. -/
inductive MaskMeshHead
  | emptyMeshWithWarning
  | proceeds
deriving DecidableEq

/-- Head of `mask_to_mesh` (mesh.py lines 101-105): when the mask array's
maximum is 0 (no set voxel) the function logs a warning and returns an empty
`Trimesh` — it does not raise any error. -/
def mask_to_mesh_head (mask : List (List (List Bool))) : MaskMeshHead :=
  if countTrue3 mask = 0 then .emptyMeshWithWarning else .proceeds

/- ---------------------------------------------------------------------------
   pipeline.py — bone-branch selection (claim C2).
   --------------------------------------------------------------------------- -/

/-- The two bone-segmentation branches of `run_reconstruction`
(pipeline.py lines 242-284): the 2.5D slice-continuity branch and the
fallback 3D GMM branch. -/
inductive BoneBranch
  | seg25d
  | fallback3d
deriving DecidableEq

/-- The `force_25d` flag exactly as computed in pipeline.py line 246:
`os.getenv("FORCE_25D", "1") != "0"`. -/
def force_25d_flag (force25dEnv : Option String) : Bool :=
  (force25dEnv.getD "1") ≠ "0"

/-- Bone-branch selection of `run_reconstruction` (pipeline.py lines
242-284).  The `force_25d` flag is computed and logged but never consulted:
the branch is chosen solely by whether the fused volume's spacing tuple has
3 components (line 250, `if len(orig_spacing) == 3`). -/
def bone_branch (force25dEnv : Option String) (spacingLen : ℕ) : BoneBranch :=
  let _force_25d := force_25d_flag force25dEnv
  if spacingLen = 3 then .seg25d else .fallback3d

/- ---------------------------------------------------------------------------
   Kernel-computable exact rationals.

   `Rat` arithmetic does not reduce inside the 4.14 kernel (its normalization
   runs through well-founded `Nat.gcd`), so the executable embedding of
   segment.py uses unnormalized fractions with positive denominators.  Every
   value reached by the modelled runs is an exact dyadic/decimal rational, so
   this models float64 arithmetic exactly on those runs.
   --------------------------------------------------------------------------- -/

/-- Unnormalized fraction `num / den` over ℤ.  All constructions below keep
`den` positive, which the comparison operators assume. -/
structure Fr where
  num : ℤ
  den : ℤ
deriving DecidableEq

/-- Embed an integer. -/
def Fr.ofInt (n : ℤ) : Fr := ⟨n, 1⟩

/-- Fraction addition (no normalization). -/
def Fr.add (a b : Fr) : Fr := ⟨a.num * b.den + b.num * a.den, a.den * b.den⟩

/-- Fraction subtraction. -/
def Fr.sub (a b : Fr) : Fr := ⟨a.num * b.den - b.num * a.den, a.den * b.den⟩

/-- Fraction multiplication. -/
def Fr.mul (a b : Fr) : Fr := ⟨a.num * b.num, a.den * b.den⟩

/-- Division by a positive integer. -/
def Fr.divPos (a : Fr) (n : ℤ) : Fr := ⟨a.num, a.den * n⟩

/-- General fraction division, sign-adjusted so the denominator stays
positive whenever the divisor is nonzero. -/
def Fr.div (a b : Fr) : Fr :=
  if b.num < 0 then ⟨a.num * (-b.den), a.den * (-b.num)⟩ else ⟨a.num * b.den, a.den * b.num⟩

/-- Value comparison `a ≤ b` (valid for positive denominators). -/
def Fr.le (a b : Fr) : Bool := decide (a.num * b.den ≤ b.num * a.den)

/-- Value comparison `a < b` (valid for positive denominators). -/
def Fr.lt (a b : Fr) : Bool := decide (a.num * b.den < b.num * a.den)

/-- Floor of the represented value (positive denominator). -/
def Fr.floor (a : Fr) : ℤ := Int.fdiv a.num a.den

/-- The represented rational value, for relating `Fr` computations to ℚ. -/
def Fr.toRat (a : Fr) : ℚ := (a.num : ℚ) / (a.den : ℚ)

/-- Fueled binary search for the integer square root: maintains
`lo² ≤ n < (hi+1)²`; the fuel only bounds the (logarithmic) loop. -/
def sqrtGo (n : ℕ) : ℕ → ℕ → ℕ → ℕ
  | lo, _, 0 => lo
  | lo, hi, fuel + 1 =>
      if hi ≤ lo then lo
      else
        let mid := (lo + hi + 1) / 2
        if mid * mid ≤ n then sqrtGo n mid hi fuel else sqrtGo n lo (mid - 1) fuel

/-- Integer square root (`⌊√n⌋` for nonnegative `n`), exact on perfect
squares. -/
def isqrtZ (n : ℤ) : ℤ := (sqrtGo n.toNat 0 n.toNat n.toNat : ℤ)

/-- numpy's `hypot`: `sqrt (x² + y²)`.  Exact whenever numerator and
denominator of the radicand are perfect squares — true throughout the
modelled runs, where one of the two gradients vanishes at every pixel. -/
def Fr.hypot (x y : Fr) : Fr :=
  let s := (x.mul x).add (y.mul y)
  ⟨isqrtZ s.num, isqrtZ s.den⟩

/- ---------------------------------------------------------------------------
   2D grids (numpy arrays) as nested lists, indexed `[row][col]` = `[y][x]`.
   --------------------------------------------------------------------------- -/

/-- A 2D boolean array. -/
abbrev BGrid := List (List Bool)

/-- A 2D fractional array. -/
abbrev FGrid := List (List Fr)

/-- A 2D integer array (used for component labels). -/
abbrev ZGrid := List (List ℤ)

/-- Height (number of rows). -/
def gH {α : Type} (g : List (List α)) : ℕ := g.length

/-- Width (number of columns). -/
def gW {α : Type} (g : List (List α)) : ℕ := (g.getD 0 []).length

/-- Read a boolean cell; out-of-range reads are `false` (scipy's
`border_value=0` convention for the morphology below). -/
def bgetZ (g : BGrid) (i j : ℤ) : Bool :=
  if 0 ≤ i ∧ 0 ≤ j then (g.getD i.toNat []).getD j.toNat false else false

/-- Read a fractional cell, defaulting to 0 out of range. -/
def fget (g : FGrid) (i j : ℤ) : Fr :=
  if 0 ≤ i ∧ 0 ≤ j then (g.getD i.toNat []).getD j.toNat (Fr.ofInt 0) else Fr.ofInt 0

/-- Read a label cell, defaulting to 0 out of range. -/
def zget (g : ZGrid) (i j : ℤ) : ℤ :=
  if 0 ≤ i ∧ 0 ≤ j then (g.getD i.toNat []).getD j.toNat 0 else 0

/-- Build an H×W boolean grid from a cell function. -/
def mkBGrid (H W : ℕ) (f : ℤ → ℤ → Bool) : BGrid :=
  (List.range H).map (fun i => (List.range W).map (fun j => f i j))

/-- Build an H×W fractional grid from a cell function. -/
def mkFGrid (H W : ℕ) (f : ℤ → ℤ → Fr) : FGrid :=
  (List.range H).map (fun i => (List.range W).map (fun j => f i j))

/-- Build an H×W label grid from a cell function. -/
def mkZGrid (H W : ℕ) (f : ℤ → ℤ → ℤ) : ZGrid :=
  (List.range H).map (fun i => (List.range W).map (fun j => f i j))

/-- Number of `true` cells (`mask.sum()` on a boolean array). -/
def bcount (g : BGrid) : ℕ := (g.map (fun r => r.count true)).sum

/-- Number of cells set in both masks (`(a & b).sum()`). -/
def interCount (a b : BGrid) : ℕ :=
  ((List.zipWith (fun ra rb => (List.zipWith and ra rb).count true) a b)).sum

/- ---------------------------------------------------------------------------
   numpy / scipy primitives used by segment.py.
   --------------------------------------------------------------------------- -/

/-- Insert into a list sorted ascending by value. -/
def frInsert (x : Fr) : List Fr → List Fr
  | [] => [x]
  | y :: ys => if Fr.le x y then x :: y :: ys else y :: frInsert x ys

/-- Sort ascending by value (`np.sort`; only the sorted values matter for the
percentile below, so any comparison sort is a faithful model). -/
def frSort (l : List Fr) : List Fr := l.foldr frInsert []

/-- `np.percentile(xs, p)` with the default linear interpolation: virtual
index `h = p/100 · (n−1)`, result `s[⌊h⌋] + (h−⌊h⌋)·(s[⌊h⌋+1] − s[⌊h⌋])`
on the ascending sort `s` (upper index clipped to `n−1`).  All calls in
segment.py pass integer `p`.  Undefined (numpy raises) on an empty list;
the embedding returns 0 there, a case no modelled path reaches. -/
def percentile (p : ℤ) (xs : List Fr) : Fr :=
  let s := frSort xs
  let n := s.length
  let h : Fr := ⟨p * ((n : ℤ) - 1), 100⟩
  let lo := h.floor
  let fr := h.sub (Fr.ofInt lo)
  let a := s.getD lo.toNat (Fr.ofInt 0)
  let b := s.getD (min (lo.toNat + 1) (n - 1)) (Fr.ofInt 0)
  a.add (fr.mul (b.sub a))

/-- The row-major list of values of `g` at the cells where `bm` is set
(numpy boolean-mask indexing `g[bm]`). -/
def maskedVals (g : FGrid) (bm : BGrid) : List Fr :=
  ((List.zipWith (fun rv rb =>
    ((rv.zip rb).filterMap (fun p => if p.2 then some p.1 else none))) g bm)).flatten

/-- `np.gradient` along axis 0 (rows): one-sided differences at the two
boundary rows, central differences halved in the interior.  numpy raises
for fewer than 2 rows; the embedding returns 0 there (never reached). -/
def gradAxis0 (g : FGrid) : FGrid :=
  mkFGrid (gH g) (gW g) (fun i j =>
    if gH g < 2 then Fr.ofInt 0
    else if i = 0 then (fget g 1 j).sub (fget g 0 j)
    else if i = (gH g : ℤ) - 1 then (fget g i j).sub (fget g (i - 1) j)
    else ((fget g (i + 1) j).sub (fget g (i - 1) j)).divPos 2)

/-- `np.gradient` along axis 1 (columns). -/
def gradAxis1 (g : FGrid) : FGrid :=
  mkFGrid (gH g) (gW g) (fun i j =>
    if gW g < 2 then Fr.ofInt 0
    else if j = 0 then (fget g i 1).sub (fget g i 0)
    else if j = (gW g : ℤ) - 1 then (fget g i j).sub (fget g i (j - 1))
    else ((fget g i (j + 1)).sub (fget g i (j - 1))).divPos 2)

/-- `np.hypot` applied cellwise. -/
def hypotGrid (gx gy : FGrid) : FGrid :=
  mkFGrid (gH gx) (gW gx) (fun i j => Fr.hypot (fget gx i j) (fget gy i j))

/-- Binary erosion with the default `generate_binary_structure(2, 1)` cross
and `border_value=0`. -/
def erode (g : BGrid) : BGrid :=
  mkBGrid (gH g) (gW g) (fun i j =>
    bgetZ g i j && bgetZ g (i - 1) j && bgetZ g (i + 1) j &&
    bgetZ g i (j - 1) && bgetZ g i (j + 1))

/-- Binary dilation with the cross structuring element and `border_value=0`. -/
def dilate (g : BGrid) : BGrid :=
  mkBGrid (gH g) (gW g) (fun i j =>
    bgetZ g i j || bgetZ g (i - 1) j || bgetZ g (i + 1) j ||
    bgetZ g i (j - 1) || bgetZ g i (j + 1))

/-- `binary_opening(·, iterations=1)`: erosion then dilation. -/
def opening (g : BGrid) : BGrid := dilate (erode g)

/-- `binary_closing(·, iterations=1)`: dilation then erosion. -/
def closing (g : BGrid) : BGrid := erode (dilate g)

/-- Iterate a grid transformer to its fixpoint, stopping early once stable;
the fuel (`H·W` at all call sites) bounds the monotone flood/label spreads
below, so the result is the exact fixpoint. -/
def iterFixB (f : BGrid → BGrid) : ℕ → BGrid → BGrid
  | 0, x => x
  | n + 1, x => let y := f x; if y = x then x else iterFixB f n y

/-- One step of background flood fill from the border (4-connectivity). -/
def bgSpread (g : BGrid) (reach : BGrid) : BGrid :=
  mkBGrid (gH g) (gW g) (fun i j =>
    bgetZ reach i j ||
      (!bgetZ g i j &&
        (bgetZ reach (i - 1) j || bgetZ reach (i + 1) j ||
         bgetZ reach i (j - 1) || bgetZ reach i (j + 1))))

/-- `scipy.ndimage.binary_fill_holes` with the default cross structure:
background cells not reachable from the border become foreground. -/
def fillHoles (g : BGrid) : BGrid :=
  let border := mkBGrid (gH g) (gW g) (fun i j =>
    !bgetZ g i j && ((i == 0) || (j == 0) || (i == (gH g : ℤ) - 1) || (j == (gW g : ℤ) - 1)))
  let reach := iterFixB (bgSpread g) (gH g * gW g) border
  mkBGrid (gH g) (gW g) (fun i j => bgetZ g i j || !bgetZ reach i j)

/-- Fixpoint iteration for label grids with early stop. -/
def iterFixZ (f : ZGrid → ZGrid) : ℕ → ZGrid → ZGrid
  | 0, x => x
  | n + 1, x => let y := f x; if y = x then x else iterFixZ f n y

/-- Initial labels: each foreground cell gets its (positive) linear index. -/
def labInit (g : BGrid) : ZGrid :=
  mkZGrid (gH g) (gW g) (fun i j => if bgetZ g i j then i * (gW g : ℤ) + j + 1 else 0)

/-- One step of minimum-label propagation over 4-neighbors. -/
def labStep (g : BGrid) (l : ZGrid) : ZGrid :=
  mkZGrid (gH g) (gW g) (fun i j =>
    if bgetZ g i j then
      (([zget l (i - 1) j, zget l (i + 1) j, zget l i (j - 1), zget l i (j + 1)].filter
        (fun v => decide (0 < v)))).foldl min (zget l i j)
    else 0)

/-- Connected-component labels (4-connectivity, as `scipy.ndimage.label`
with `generate_binary_structure(2, 1)`): cells of one component share the
component's minimal initial label. -/
def labelsOf (g : BGrid) : ZGrid := iterFixZ (labStep g) (gH g * gW g) (labInit g)

/-- The distinct positive labels of a label grid. -/
def compLabels (l : ZGrid) : List ℤ := (l.flatten.filter (fun v => decide (0 < v))).dedup

/-- Size of the component with the given label. -/
def labelSize (l : ZGrid) (v : ℤ) : ℕ := l.flatten.count v

/-- Insert into a list of (size, label) pairs sorted ascending
lexicographically. -/
def pairInsert (x : ℕ × ℤ) : List (ℕ × ℤ) → List (ℕ × ℤ)
  | [] => [x]
  | y :: ys =>
      if x.1 < y.1 ∨ (x.1 = y.1 ∧ x.2 ≤ y.2) then x :: y :: ys else y :: pairInsert x ys

/-- Sort (size, label) pairs ascending. -/
def pairSort (l : List (ℕ × ℤ)) : List (ℕ × ℤ) := l.foldr pairInsert []

/-- `_largest_k_2d` (segment.py lines 19-29): keep only the `k` largest
4-connected components; a mask with at most `k` components (or none) is
returned unchanged.  The source ranks by `np.argsort` of the counts, whose
tie order is unspecified; the embedding breaks size ties by label order, a
case no modelled path exercises (they all return through the `≤ k`
shortcut). -/
def largest_k_2d (mask : BGrid) (k : ℕ) : BGrid :=
  let l := labelsOf mask
  let labs := compLabels l
  if labs.length = 0 then mask
  else if labs.length ≤ k then mask
  else
    let ranked := pairSort (labs.map (fun v => (labelSize l v, v)))
    let keep := (ranked.drop (ranked.length - k)).map (fun p => p.2)
    mkBGrid (gH mask) (gW mask) (fun i j => bgetZ mask i j && keep.contains (zget l i j))

/- ---------------------------------------------------------------------------
   segment.py — segment_bone_25d (lines 32-132), claims C4, C5, C8.
   --------------------------------------------------------------------------- -/

/-- Coverage-band lower edge (segment.py line 16, float `0.008`). -/
def targetMinCov : Fr := ⟨8, 1000⟩

/-- Coverage-band upper edge (segment.py line 16, float `0.08`). -/
def targetMaxCov : Fr := ⟨8, 100⟩

/-- Inverted intensity `1 - sl` of a slice (segment.py line 58). -/
def invOf (sl : FGrid) : FGrid :=
  mkFGrid (gH sl) (gW sl) (fun i j => (Fr.ofInt 1).sub (fget sl i j))

/-- In-plane gradient magnitude of a slice:
`gy, gx = np.gradient(inv); grad = np.hypot(gx, gy)` (segment.py 59-60). -/
def gradOf (inv : FGrid) : FGrid := hypotGrid (gradAxis1 inv) (gradAxis0 inv)

/-- The 2D candidate of one auto-correction attempt (segment.py 67-75):
threshold `inv` at its `low_p`-th and `grad` at its `grad_p`-th percentile
inside the body mask, intersect with the body mask, then opening, closing,
hole fill, and keep the top-2 components. -/
def cand_at (inv grad : FGrid) (bm : BGrid) (lowp gradp : ℤ) : BGrid :=
  let low := percentile lowp (maskedVals inv bm)
  let grd := percentile gradp (maskedVals grad bm)
  let c := mkBGrid (gH bm) (gW bm) (fun i j =>
    Fr.le low (fget inv i j) && Fr.le grd (fget grad i j) && bgetZ bm i j)
  largest_k_2d (fillHoles (closing (opening c))) 2

/-- The continuity acceptance test (segment.py 77-79): the candidate must
overlap the previous accepted mask in at least 20% of the previous mask's
area (`inter < 0.2 * max(prev.sum(), 1)` rejects). -/
def overlapOKB (cand prevM : BGrid) : Bool :=
  !(Fr.lt (Fr.ofInt (interCount cand prevM))
      ((Fr.mk 1 5).mul (Fr.ofInt (max (bcount prevM) 1))))

/-- The per-slice retry loop (`for _ in range(3)`, segment.py 64-84) for a
slice whose body mask is non-empty: compute the candidate; when a previous
accepted mask exists and the continuity test fails, retighten
(`low_p := max 5 (low_p−3)`, `grad_p := min 95 (grad_p+5)`) while retries
remain, otherwise accept the last candidate.  `fuel` counts the remaining
iterations (3 at entry; the `fuel = 0` equation is unreachable). -/
def attempts (inv grad : FGrid) (bm : BGrid) (prev : Option BGrid) :
    ℕ → ℤ → ℤ → BGrid
  | 0, _, _ => []
  | fuel + 1, lowp, gradp =>
      let cand := cand_at inv grad bm lowp gradp
      match prev with
      | none => cand
      | some p =>
          if overlapOKB cand p then cand
          else if fuel = 0 then cand
          else attempts inv grad bm prev fuel (max 5 (lowp - 3)) (min 95 (gradp + 5))

/-- The slice loop of `segment_bone_25d` (lines 54-87) over
(slice, body-mask) pairs.  The Python variable `cand` outlives each
iteration, so a slice whose body mask is empty re-emits the previous
slice's candidate (`break` with `cand` unchanged); if that happens on the
first slice, `out[z] = cand` raises `NameError` (`cand` unbound), modelled
as `Except.error`.  Each accepted mask becomes both `prev` and the new
`cand` value. -/
def runSlices : List (FGrid × BGrid) → Option BGrid → Option BGrid →
    Except Unit (List BGrid)
  | [], _, _ => .ok []
  | (sl, bm) :: rest, prev, candVar =>
      let inv := invOf sl
      let grad := gradOf inv
      if bcount bm = 0 then
        match candVar with
        | none => .error ()
        | some c => (runSlices rest (some c) (some c)).map (fun r => c :: r)
      else
        let c := attempts inv grad bm prev 3 8 85
        (runSlices rest (some c) (some c)).map (fun r => c :: r)

/-- The loose body mask of `segment_bone_25d` (lines 49-50): cells strictly
above the 5th percentile of the whole volume. -/
def bodyMasks (vol : List FGrid) : List BGrid :=
  let thr := percentile 5 ((vol.map List.flatten).flatten)
  vol.map (fun sl => mkBGrid (gH sl) (gW sl) (fun i j => Fr.lt thr (fget sl i j)))

/-- Total set-cell count of a mask stack. -/
def sumCounts (l : List BGrid) : ℕ := (l.map bcount).sum

/-- The accepted (pre-banding) mask stack of `segment_bone_25d`. -/
def segment_accepted (vol : List FGrid) : Except Unit (List BGrid) :=
  runSlices (vol.zip (bodyMasks vol)) none none

/-- `segment_bone_25d` (segment.py 32-132): slice-by-slice candidate
acceptance followed by the global coverage-band tuning (lines 89-131).
Coverage above the band: three openings per slice, keep the single largest
component, one more opening, and a warning naming the recomputed coverage
when it is still above the band.  Coverage below the band: one closing per
slice, with the recomputed coverage only logged — never warned.  In-band:
unchanged.  Returns the mask stack and the list of warned coverage values
(line 116 is the only `logger.warning` in the function). -/
def segment_bone_25d (vol : List FGrid) : Except Unit (List BGrid × List Fr) :=
  match segment_accepted vol with
  | .error e => .error e
  | .ok out =>
      let bodyc := sumCounts (bodyMasks vol)
      let cov : Fr := ⟨(sumCounts out : ℤ), ((max bodyc 1 : ℕ) : ℤ)⟩
      if Fr.lt targetMaxCov cov then
        let out2 := ((out.map (fun m => opening (opening (opening m)))).map
          (fun m => largest_k_2d m 1)).map opening
        let cov2 : Fr := ⟨(sumCounts out2 : ℤ), ((max bodyc 1 : ℕ) : ℤ)⟩
        if Fr.lt targetMaxCov cov2 then .ok (out2, [cov2]) else .ok (out2, [])
      else if Fr.lt cov targetMinCov then
        .ok (out.map closing, [])
      else .ok (out, [])

/- ---------------------------------------------------------------------------
   pipeline.py — the bone-only job around segment_bone_25d (claim C8).
   --------------------------------------------------------------------------- -/

/-- Minimum of all voxel values (`vol_arr.min()`), 0 on an empty volume. -/
def volMin (vol : List FGrid) : Fr :=
  match (vol.map List.flatten).flatten with
  | [] => Fr.ofInt 0
  | x :: xs => xs.foldl (fun a b => if Fr.lt b a then b else a) x

/-- Maximum of all voxel values (`vol_arr.max()`), 0 on an empty volume. -/
def volMax (vol : List FGrid) : Fr :=
  match (vol.map List.flatten).flatten with
  | [] => Fr.ofInt 0
  | x :: xs => xs.foldl (fun a b => if Fr.lt a b then b else a) x

/-- The normalization of pipeline.py line 263:
`(vol_arr - min) / (max - min + 1e-6)`. -/
def normalizeVol (vol : List FGrid) : List FGrid :=
  let mn := volMin vol
  let d := ((volMax vol).sub mn).add ⟨1, 1000000⟩
  vol.map (fun sl => mkFGrid (gH sl) (gW sl) (fun i j => ((fget sl i j).sub mn).div d))

/-- Outcome of the bone-only reconstruction job around the 2.5D branch
(pipeline.py lines 242-303): an exception inside the bone branch is caught
(line 285) and logged, leaving the mesh list empty, so `run_reconstruction`
raises `ValueError("No meshes generated (check tissue options)")` (line
303); the worker surfaces it as a terminal error status.  On success the
mask stack proceeds to mesh extraction. -/
inductive BoneJobOutcome
  | failedNoMeshes (msg : String)
  | proceedsToMeshing (masks : List BGrid)
deriving DecidableEq

/-- The bone-only job path of `run_reconstruction` for a fused volume:
normalize (line 263), run the 2.5D segmentation, and either proceed to
meshing or fail the job with the `ValueError` message of line 303.  (The
segmentation-spacing resample of line 258 maps an all-zero volume to an
all-zero volume and is not re-modelled here.) -/
def bone_only_run (fused : List FGrid) : BoneJobOutcome :=
  match segment_bone_25d (normalizeVol fused) with
  | .error _ => .failedNoMeshes "No meshes generated (check tissue options)"
  | .ok (out, _) => .proceedsToMeshing out

/- ---------------------------------------------------------------------------
   Concrete volumes for the C4/C5 counterexamples and witnesses.
   --------------------------------------------------------------------------- -/

/-- Column profile of slice 0 of the C4 volume: two background columns, a
softened transition (column 3 at value 8), an intensity plateau (bone-like
low signal, value 2) at columns 6-7, flat value 16 elsewhere. -/
def vol4sl0 (j : ℤ) : ℤ :=
  if j < 2 then 0 else if j = 3 then 8 else if j = 6 ∨ j = 7 then 2 else 16

/-- Column profile of slice 1 of the C4 volume: same structure with the
plateau moved to columns 12-13, disjoint from slice 0's. -/
def vol4sl1 (j : ℤ) : ℤ :=
  if j < 2 then 0 else if j = 3 then 8 else if j = 12 ∨ j = 13 then 2 else 16

/-- The C4 counterexample volume: 2 slices of 3×19, constant along rows.
Slice 0 yields the accepted mask `row 1 × columns 5-8`; slice 1's candidate
(`row 1 × columns 11-14`) never overlaps it, fails the continuity test on
all three attempts, and is accepted anyway; the total coverage 8/102 lands
inside the band so the tuning pass returns the accepted stack unchanged. -/
def vol4 : List FGrid :=
  [mkFGrid 3 19 (fun _ j => Fr.ofInt (vol4sl0 j)),
   mkFGrid 3 19 (fun _ j => Fr.ofInt (vol4sl1 j))]

/-- The mask stack `segment_bone_25d` returns on `vol4`. -/
def c4OutLit : List BGrid :=
  [mkBGrid 3 19 (fun i j => (i == 1) && (decide (5 ≤ j)) && (decide (j ≤ 8))),
   mkBGrid 3 19 (fun i j => (i == 1) && (decide (11 ≤ j)) && (decide (j ≤ 14)))]

/-- Whether slice `z` is the first slice with a non-empty accepted mask. -/
def firstNonEmptyB (out : List BGrid) (z : ℕ) : Bool :=
  (bcount (out.getD z []) != 0) &&
  ((List.range z).all (fun j => bcount (out.getD j []) == 0))

/-- Claim C4 as stated, on a returned mask stack: every slice with a
predecessor is either the first non-empty accepted slice or overlaps the
previous accepted slice in at least 20% of the previous mask's area. -/
def claimC4B (out : List BGrid) : Bool :=
  (List.range out.length).all (fun z =>
    if z = 0 then true
    else firstNonEmptyB out z || overlapOKB (out.getD z []) (out.getD (z - 1) []))

/-- Single-pass check for the C4 counterexample: `segment_bone_25d vol4`
succeeds, returns exactly `c4OutLit` with no warnings, and that stack has a
non-empty slice 1 disjoint from slice 0. -/
def c4CheckB : Bool :=
  match segment_bone_25d vol4 with
  | .error _ => false
  | .ok (out, warns) =>
      (out == c4OutLit) && warns.isEmpty &&
      (bcount (out.getD 1 []) == 4) && (interCount (out.getD 1 []) (out.getD 0 []) == 0)

/-- Column profile of the C5 volume: two background columns, an isolated
intensity spike at column 7, flat value 16 elsewhere. -/
def vol5col (j : ℤ) : ℤ := if j < 2 then 0 else if j = 7 then 2 else 16

/-- The C5 counterexample volume: one 3×12 slice whose candidate columns
are all 1-wide and isolated, so the opening erases every candidate: the
returned mask is empty, the coverage 0 is below the band, the closing
branch runs, and no warning is emitted. -/
def vol5 : List FGrid := [mkFGrid 3 12 (fun _ j => Fr.ofInt (vol5col j))]

/-- The coverage of a returned mask stack against its volume's body mask
(`out.sum() / max(body.sum(), 1)`). -/
def finalCovOf (vol : List FGrid) (out : List BGrid) : Fr :=
  ⟨(sumCounts out : ℤ), ((max (sumCounts (bodyMasks vol)) 1 : ℕ) : ℤ)⟩

/-- Single-pass check for the C5 counterexample: `segment_bone_25d vol5`
succeeds with an all-empty stack, final coverage 0 strictly below the
band's lower edge, and an empty warning list — so the claimed disjunction
(coverage in band, or a warning naming the value) fails. -/
def c5CheckB : Bool :=
  match segment_bone_25d vol5 with
  | .error _ => false
  | .ok (out, warns) =>
      let cov := finalCovOf vol5 out
      (out.all (fun m => bcount m == 0)) && warns.isEmpty &&
      Fr.lt cov targetMinCov &&
      !((Fr.le targetMinCov cov && Fr.le cov targetMaxCov) || !warns.isEmpty)

/-- The witness volume for the amended C4/C5 statements: 2 slices of 2×3
with one background column; every candidate is a 1-wide column erased by
the opening, so both accepted masks are empty and slice 1 is accepted as
the third (retry-exhausted) candidate. -/
def volW : List FGrid :=
  [mkFGrid 2 3 (fun _ j => Fr.ofInt (if j = 0 then 0 else 16)),
   mkFGrid 2 3 (fun _ j => Fr.ofInt (if j = 0 then 0 else 16))]

/-- An all-zero fused volume (claim C8). -/
def zeroVol : List FGrid := [mkFGrid 2 2 (fun _ _ => Fr.ofInt 0)]

/- ---------------------------------------------------------------------------
   Theorems for claims C1, C2, C3, C10 and the C8 counterexample.
   --------------------------------------------------------------------------- -/

/-- C1 (counterexample): the claimed vertex mapping fails for
`mesh_from_mask`.  At the concrete marching-cubes vertex `(z, y, x) =
(1, 2, 3)` with identity direction and zero origin (where the claimed
mapping reduces to `(-x, z, y) * 0.001 = (-3/1000, 1/1000, 2/1000)`),
`mesh_from_mask` instead emits `(-1/1000, 3/1000, 2/1000)`. -/
theorem c1_counterexample :
    mesh_from_mask_vertex (1, 2, 3) ≠ spec_vertex_transform matId vec0 (1, 2, 3) ∧
    mesh_from_mask_vertex (1, 2, 3) = (-(1/1000), 3/1000, 2/1000) := by
  constructor
  · simp only [mesh_from_mask_vertex, spec_vertex_transform, matId, vec0, matVec, vecAdd,
      Prod.mk.injEq]
    norm_num
  · simp only [mesh_from_mask_vertex, Prod.mk.injEq]
    norm_num

/-- C1 (amended): the claimed vertex mapping — swap `(z,y,x)` to `(x,y,z)`,
apply `p_lps = D · v + origin`, rotate to `x_out = -L, y_out = S, z_out = P`
and scale by 0.001 — holds for `mask_to_mesh` for every direction matrix,
origin and vertex; `mesh_from_mask` instead emits `(-v₀, v₂, v₁) * 0.001`
from the raw `(z, y, x)` vertex, with no index swap and no direction/origin
mapping, which (at identity direction and zero origin) agrees with the
claimed mapping exactly at the vertices whose first and last index
coordinates coincide. -/
theorem c1_vertex_transform :
    (∀ (d : Mat3) (o : Vec3) (v : Vec3),
      mask_to_mesh_vertex d o v = spec_vertex_transform d o v) ∧
    (∀ v : Vec3,
      mesh_from_mask_vertex v = ((-v.1) * (1/1000), v.2.2 * (1/1000), v.2.1 * (1/1000))) ∧
    (∀ v : Vec3,
      (mesh_from_mask_vertex v = spec_vertex_transform matId vec0 v ↔ v.1 = v.2.2)) := by
  refine ⟨fun d o v => rfl, fun v => rfl, fun v => ?_⟩
  simp only [mesh_from_mask_vertex, spec_vertex_transform, matId, vec0, matVec, vecAdd,
    Prod.mk.injEq]
  constructor
  · rintro ⟨h1, -, -⟩
    nlinarith [h1]
  · intro h
    refine ⟨by rw [h]; ring, by rw [h]; ring, by ring⟩

/-- C2 (code evaluation at the failing input): with `FORCE_25D="0"` and a
3-component spacing tuple, `run_reconstruction` still takes the 2.5D
segmentation branch — the computed `force_25d` flag is `false`, yet the
branch test looks only at the spacing length, so the claim's promised 3D
branch is not taken. -/
theorem c2_force25d_ignored :
    force_25d_flag (some "0") = false ∧
    bone_branch (some "0") 3 = BoneBranch.seg25d ∧
    bone_branch (some "0") 3 ≠ BoneBranch.fallback3d := by
  refine ⟨rfl, rfl, ?_⟩
  decide

/-- C3 (counterexample): the step size is not 1 for every mask-to-mesh
operation — `mask_to_mesh` passes the literal `step_size=2` to its first
marching-cubes call. -/
theorem c3_counterexample : mask_to_mesh_step = 2 ∧ mask_to_mesh_step ≠ 1 := by
  exact ⟨rfl, by decide⟩

/-- C3 (amended): in `mesh_from_mask` (the bone-pipeline meshing path) the
step size actually passed to marching cubes is 1 for every requested
`MC_STEP_SIZE` value, with a warning whenever the request differed from 1;
`mask_to_mesh`, however, passes `step_size=2` on its first call and the
skimage default 1 only on its level-adjusted retry. -/
theorem c3_step_sizes :
    (∀ env : Option ℤ, (mesh_from_mask_step env).1 = 1) ∧
    (∀ env : Option ℤ, (mesh_from_mask_step env).2 = true ↔ env.getD 1 ≠ 1) ∧
    mask_to_mesh_step = 2 ∧ mask_to_mesh_retry_step = 1 := by
  refine ⟨fun env => ?_, fun env => ?_, rfl, rfl⟩
  · by_cases h : env.getD 1 ≠ 1
    · simp [mesh_from_mask_step, h]
    · push_neg at h
      simp [mesh_from_mask_step, h]
  · by_cases h : env.getD 1 ≠ 1
    · simp [mesh_from_mask_step, h]
    · push_neg at h
      simp [mesh_from_mask_step, h]

/-- C8 (counterexample): an empty mask is not a fatal error in
`mask_to_mesh` — the function returns an empty mesh with a logged warning
instead of raising anything, contradicting the claim that an empty mask is
a fatal, surfaced `DegenerateGeometryError`. -/
theorem c8_counterexample :
    mask_to_mesh_head [[[false, false], [false, false]]] = MaskMeshHead.emptyMeshWithWarning := by
  decide

/-- C10 (confirmed): `mesh_from_mask` raises
`ValueError("Mask too small for mesh.")` before building any geometry
exactly when its input mask has fewer than 2000 set voxels, and the guard
passes for every mask with at least 2000 set voxels. -/
theorem c10_mesh_guard :
    ∀ mask : List (List (List Bool)),
      (mesh_from_mask_guard mask = .error "Mask too small for mesh." ↔ countTrue3 mask < 2000) ∧
      (mesh_from_mask_guard mask = .ok () ↔ 2000 ≤ countTrue3 mask) := by
  intro mask
  unfold mesh_from_mask_guard
  constructor
  · constructor
    · intro h
      by_contra hn
      push_neg at hn
      rw [if_neg (by exact_mod_cast not_lt.mpr hn)] at h
      cases h
    · intro h
      rw [if_pos (by exact_mod_cast h)]
  · constructor
    · intro h
      by_contra hn
      push_neg at hn
      rw [if_pos (by exact_mod_cast hn)] at h
      cases h
    · intro h
      rw [if_neg (by exact_mod_cast not_lt.mpr h)]

/-- C5 (counterexample): on the concrete volume `vol5` the returned bone
mask is empty, the final coverage 0 lies strictly below the 0.8% band edge,
and no warning is emitted — refuting the claimed disjunction for the
below-band case after the closing step. -/
theorem c5_counterexample : c5CheckB = true := by decide

/-- C4 (counterexample): on the concrete volume `vol4` the returned stack
equals `c4OutLit` with no warnings; its slice 1 is non-empty and disjoint
from the non-empty slice 0, so it is neither the first non-empty accepted
slice nor 20%-overlapping with its predecessor — the claimed invariant
fails on the returned mask. -/
theorem c4_counterexample : c4CheckB = true ∧ claimC4B c4OutLit = false :=
  ⟨by decide, by decide⟩

/- ---------------------------------------------------------------------------
   reconstruction_v2.py — output upload commit (claim C7).
   --------------------------------------------------------------------------- -/

/-- Terminal status of `process_dicom_to_mesh_v2`: the success dictionary
with the two object names, or the error dictionary produced by the
enclosing exception handler (reconstruction_v2.py lines 266-269). -/
inductive JobStatus
  | success (stlUrl gltfUrl : String)
  | error
deriving DecidableEq

/-- The output-upload sequence of `process_dicom_to_mesh_v2`
(reconstruction_v2.py lines 238-264) under its enclosing `try`/`except`:
the GLB blob is read and uploaded first, then the STL blob.  `glbOk` and
`stlOk` say whether each read-and-upload step succeeds; a failing step
raises, control jumps to the handler, and already-uploaded blobs stay in
the object store — there is no rollback.  Returns the list of committed
`(object name, content type)` uploads in order, with the final status. -/
def upload_outputs (rid : String) (glbOk stlOk : Bool) :
    List (String × String) × JobStatus :=
  if !glbOk then ([], .error)
  else if !stlOk then ([("mesh/" ++ rid ++ "/mesh.glb", "model/gltf-binary")], .error)
  else ([("mesh/" ++ rid ++ "/mesh.glb", "model/gltf-binary"),
         ("mesh/" ++ rid ++ "/mesh.stl", "application/octet-stream")],
        .success ("mesh/" ++ rid ++ "/mesh.stl") ("mesh/" ++ rid ++ "/mesh.glb"))

/- ---------------------------------------------------------------------------
   reconstruction_v2.py — choose_primary_series (claim C9).
   --------------------------------------------------------------------------- -/

/-- One candidate series as scored by `choose_primary_series`
(reconstruction_v2.py lines 152-157): its identifier, slice count `n`, and
through-plane spacing `z` in hundredths of a millimeter (the source's float
spacings idealized on an exact 0.01 mm lattice). -/
structure SeriesCand where
  uid : String
  slices : ℕ
  zCenti : ℤ
deriving DecidableEq

/-- The sort key ordering of line 159, `key=lambda x: (x[2], -x[1])`:
ascending spacing, then descending slice count.  A total preorder; Python's
stable sort keeps input order inside ties. -/
def candLe (a b : SeriesCand) : Prop :=
  a.zCenti < b.zCenti ∨ (a.zCenti = b.zCenti ∧ b.slices ≤ a.slices)

instance : DecidableRel candLe := fun a b => by unfold candLe; infer_instance

instance : IsTotal SeriesCand candLe :=
  ⟨fun a b => by unfold candLe; omega⟩

instance : IsTrans SeriesCand candLe :=
  ⟨fun a b c hab hbc => by unfold candLe at *; omega⟩

/-- The strict version of the key order (used only in proofs: on candidate
lists without key ties it coincides with `candLe` on distinct elements). -/
def candLt (a b : SeriesCand) : Prop :=
  a.zCenti < b.zCenti ∨ (a.zCenti = b.zCenti ∧ b.slices < a.slices)

instance : IsAntisymm SeriesCand candLt :=
  ⟨fun a b hab hba => by unfold candLt at *; omega⟩

/-- `pick(min_z, min_n)` (lines 161-165): the first candidate in the sorted
order with spacing at most `minZ` and at least `minN` slices. -/
def pick_first (sorted : List SeriesCand) (minZ : ℤ) (minN : ℕ) :
    Option SeriesCand :=
  sorted.find? (fun c => decide (c.zCenti ≤ minZ) && decide (minN ≤ c.slices))

/-- Python's `max(cand, key=lambda t: t[1])` (line 173): the first
candidate with the maximal slice count (`none` on an empty list, where the
source would raise). -/
def maxBySlices : List SeriesCand → Option SeriesCand
  | [] => none
  | x :: xs => some (xs.foldl (fun best c => if best.slices < c.slices then c else best) x)

/-- The selection made on the sorted candidate list (lines 159-175):
`pick(2.2, 40) or pick(3.5, 30)`, else the largest series. -/
def choose_from_sorted (sorted : List SeriesCand) : Option String :=
  match pick_first sorted 220 40 with
  | some p => some p.uid
  | none =>
      match pick_first sorted 350 30 with
      | some p => some p.uid
      | none => (maxBySlices sorted).map (fun c => c.uid)

/-- `choose_primary_series` (reconstruction_v2.py lines 144-175).  The
candidate list is in the iteration order of `series_groups.items()`, i.e.
the order in which series first appear in the input; a `FORCE_SERIES_UID`
value that is non-empty and present among the candidates wins outright;
otherwise the candidates are stably sorted by `(z, -n)` and scanned. -/
def choose_primary_series (forceUid : Option String) (cand : List SeriesCand) :
    Option String :=
  match forceUid with
  | some f =>
      if !f.isEmpty && cand.any (fun c => c.uid == f) then some f
      else choose_from_sorted (List.insertionSort candLe cand)
  | none => choose_from_sorted (List.insertionSort candLe cand)

/-- C7 (counterexample): when the GLB upload succeeds and the STL step then
fails, the job ends in the error status with exactly the GLB blob
committed — one of the two blobs, refuting the both-or-nothing claim. -/
theorem c7_counterexample :
    (upload_outputs "42" true false).1 = [("mesh/42/mesh.glb", "model/gltf-binary")] ∧
    (upload_outputs "42" true false).2 = JobStatus.error := by
  constructor
  · decide
  · decide

/-- C7 (amended): the committed uploads are always the maximal successful
head of the sequence GLB-then-STL — nothing on a GLB failure, the GLB blob
alone on an STL failure, both (with their content types) on success — and
the job reports success exactly when both steps succeeded; no execution
path removes an already-committed blob. -/
theorem c7_upload_commit (rid : String) (glbOk stlOk : Bool) :
    (upload_outputs rid glbOk stlOk).1 =
      (if glbOk then
        ("mesh/" ++ rid ++ "/mesh.glb", "model/gltf-binary") ::
          (if stlOk then [("mesh/" ++ rid ++ "/mesh.stl", "application/octet-stream")] else [])
       else []) ∧
    ((upload_outputs rid glbOk stlOk).2 ≠ JobStatus.error ↔ glbOk = true ∧ stlOk = true) := by
  cases glbOk <;> cases stlOk <;> simp [upload_outputs]

/-- C8 (amended): for an all-zero fused volume the normalization leaves all
voxels zero, the loose body mask is empty, the 2.5D segmentation aborts
(the empty body mask on the first slice leaves the Python variable `cand`
unbound, a `NameError`), and the bone-only job fails fatally with
`ValueError("No meshes generated (check tissue options)")`, exporting no
mesh — but not with a `DegenerateGeometryError`, which the code never
defines. -/
theorem c8_zero_volume_fails :
    ((bodyMasks (normalizeVol zeroVol)).all (fun m => bcount m == 0)) = true ∧
    (match segment_bone_25d (normalizeVol zeroVol) with
      | .error _ => true
      | .ok _ => false) = true ∧
    bone_only_run zeroVol = .failedNoMeshes "No meshes generated (check tissue options)" := by
  refine ⟨by decide, by decide, by decide⟩

/-- C9 (counterexample): two series with identical spacing and slice count
(a key tie).  Listing them in the two possible orders makes
`choose_primary_series` return different primary identifiers, so selection
is not independent of input order. -/
theorem c9_counterexample :
    choose_primary_series none
        [⟨"SER_A", 50, 200⟩, ⟨"SER_B", 50, 200⟩] = some "SER_A" ∧
    choose_primary_series none
        [⟨"SER_B", 50, 200⟩, ⟨"SER_A", 50, 200⟩] = some "SER_B" ∧
    ("SER_A" : String) ≠ "SER_B" := by
  refine ⟨by decide, by decide, by decide⟩

/-- Key inequality between candidates: differing in spacing or count. -/
def keyNe (a b : SeriesCand) : Prop :=
  ¬(a.zCenti = b.zCenti ∧ a.slices = b.slices)

/-- Key inequality is symmetric. -/
lemma keyNe_symm : Symmetric keyNe := by
  intro a b h
  unfold keyNe at *
  omega

/-- `List.any` is invariant under permutation. -/
lemma perm_any_eq {l₁ l₂ : List SeriesCand} (h : l₁.Perm l₂)
    (f : SeriesCand → Bool) : l₁.any f = l₂.any f := by
  cases h1 : l₁.any f <;> cases h2 : l₂.any f
  · rfl
  · rw [List.any_eq_true] at h2
    obtain ⟨x, hx, hfx⟩ := h2
    have : l₁.any f = true := List.any_eq_true.mpr ⟨x, h.mem_iff.mpr hx, hfx⟩
    rw [h1] at this
    cases this
  · rw [List.any_eq_true] at h1
    obtain ⟨x, hx, hfx⟩ := h1
    have : l₂.any f = true := List.any_eq_true.mpr ⟨x, h.mem_iff.mp hx, hfx⟩
    rw [h2] at this
    cases this
  · rfl

/-- A list sorted by the non-strict key order whose keys are pairwise
distinct is sorted by the strict key order. -/
lemma sorted_lt_of_sorted_le {l : List SeriesCand}
    (hs : l.Sorted candLe) (hd : l.Pairwise keyNe) : l.Sorted candLt := by
  have := List.Pairwise.and hs hd
  exact this.imp (fun {a b} hab => by
    obtain ⟨h1, h2⟩ := hab
    unfold candLe at h1
    unfold keyNe at h2
    unfold candLt
    omega)

/-- C9 (amended): series selection is deterministic up to key ties — for
any two input orders of a candidate set in which no two series share both
the through-plane spacing and the slice count, `choose_primary_series`
returns the same primary identifier (the counterexample shows a key tie is
broken by input order). -/
theorem c9_selection_deterministic (forceUid : Option String)
    (l₁ l₂ : List SeriesCand) (hp : l₁.Perm l₂)
    (hdk : l₁.Pairwise keyNe) :
    choose_primary_series forceUid l₁ = choose_primary_series forceUid l₂ := by
  have p1 : (List.insertionSort candLe l₁).Perm l₁ := List.perm_insertionSort _ _
  have p2 : (List.insertionSort candLe l₂).Perm l₂ := List.perm_insertionSort _ _
  have hdk2 : l₂.Pairwise keyNe := (hp.pairwise_iff (fun {a b} h => keyNe_symm h)).mp hdk
  have s1 : (List.insertionSort candLe l₁).Sorted candLt :=
    sorted_lt_of_sorted_le (List.sorted_insertionSort _ _)
      ((p1.pairwise_iff (fun {a b} h => keyNe_symm h)).mpr hdk)
  have s2 : (List.insertionSort candLe l₂).Sorted candLt :=
    sorted_lt_of_sorted_le (List.sorted_insertionSort _ _)
      ((p2.pairwise_iff (fun {a b} h => keyNe_symm h)).mpr hdk2)
  have hsorted_eq : List.insertionSort candLe l₁ = List.insertionSort candLe l₂ :=
    List.eq_of_perm_of_sorted (p1.trans (hp.trans p2.symm)) s1 s2
  cases forceUid with
  | none => simp only [choose_primary_series, hsorted_eq]
  | some f =>
      simp only [choose_primary_series, hsorted_eq, perm_any_eq hp]

/-- Witness for the amended C9 statement: two tie-free candidates listed in
both orders select the same series. -/
theorem c9_selection_deterministic_witness :
    choose_primary_series none
        [(⟨"SER_A", 50, 200⟩ : SeriesCand), (⟨"SER_C", 30, 300⟩ : SeriesCand)] =
    choose_primary_series none
        [(⟨"SER_C", 30, 300⟩ : SeriesCand), (⟨"SER_A", 50, 200⟩ : SeriesCand)] :=
  c9_selection_deterministic none _ _
    (List.Perm.swap (⟨"SER_C", 30, 300⟩ : SeriesCand) (⟨"SER_A", 50, 200⟩ : SeriesCand) [])
    (by
      refine List.Pairwise.cons ?_ (List.pairwise_singleton _ _)
      intro b hb
      simp only [List.mem_singleton] at hb
      subst hb
      unfold keyNe
      decide)

/- ---------------------------------------------------------------------------
   preprocess.py — resample_to_spacing, restricted to the nearest/linear
   interpolators.  The order>=2 branch of resample_to_spacing (line 125,
   sitkBSpline) and to_isotropic (lines 52-90, always sitkBSpline) perform
   recursive B-spline prefiltering whose exact behaviour at grid points is a
   floating-point question (irrational filter pole, tolerance-truncated
   recursion) and is not embedded here; no theorem below speaks about those
   paths.
   --------------------------------------------------------------------------- -/

/-- Componentwise vector difference. -/
def vecSub (a b : Vec3) : Vec3 := (a.1 - b.1, a.2.1 - b.2.1, a.2.2 - b.2.2)

/-- Componentwise (Hadamard) product. -/
def vecMulC (a b : Vec3) : Vec3 := (a.1 * b.1, a.2.1 * b.2.1, a.2.2 * b.2.2)

/-- Determinant of a 3x3 matrix. -/
def matDet (m : Mat3) : ℚ :=
  m.1.1 * (m.2.1.2.1 * m.2.2.2.2 - m.2.1.2.2 * m.2.2.2.1)
  - m.1.2.1 * (m.2.1.1 * m.2.2.2.2 - m.2.1.2.2 * m.2.2.1)
  + m.1.2.2 * (m.2.1.1 * m.2.2.2.1 - m.2.1.2.1 * m.2.2.1)

/-- Apply the inverse of a 3x3 matrix (adjugate over determinant) to a
vector; meaningful when the determinant is nonzero. -/
def matInvVec (m : Mat3) (v : Vec3) : Vec3 :=
  let det := matDet m
  (((m.2.1.2.1 * m.2.2.2.2 - m.2.1.2.2 * m.2.2.2.1) * v.1 +
    (m.1.2.2 * m.2.2.2.1 - m.1.2.1 * m.2.2.2.2) * v.2.1 +
    (m.1.2.1 * m.2.1.2.2 - m.1.2.2 * m.2.1.2.1) * v.2.2) / det,
   ((m.2.1.2.2 * m.2.2.1 - m.2.1.1 * m.2.2.2.2) * v.1 +
    (m.1.1 * m.2.2.2.2 - m.1.2.2 * m.2.2.1) * v.2.1 +
    (m.1.2.2 * m.2.1.1 - m.1.1 * m.2.1.2.2) * v.2.2) / det,
   ((m.2.1.1 * m.2.2.2.1 - m.2.1.2.1 * m.2.2.1) * v.1 +
    (m.1.2.1 * m.2.2.1 - m.1.1 * m.2.2.2.1) * v.2.1 +
    (m.1.1 * m.2.1.2.1 - m.1.2.1 * m.2.1.1) * v.2.2) / det)

/-- Python's `round` (banker's rounding, round half to even), as applied to
the new-size computation `int(round(s * z / p))`. -/
def pyRound (q : ℚ) : ℤ :=
  if q - ⌊q⌋ < 1/2 then ⌊q⌋
  else if (1 : ℚ)/2 < q - ⌊q⌋ then ⌊q⌋ + 1
  else if ⌊q⌋ % 2 = 0 then ⌊q⌋ else ⌊q⌋ + 1

/-- A SimpleITK image as the spec's Volume: extents `(nx, ny, nz)`, voxel
spacing, LPS origin, 3x3 direction matrix, and the scalar field indexed by
voxel index `(ix, iy, iz)` (values outside the extents are irrelevant; the
resampler treats them as the default pixel value 0). -/
structure VolumeImg where
  size : ℕ × ℕ × ℕ
  spacing : Vec3
  origin : Vec3
  direction : Mat3
  data : ℤ → ℤ → ℤ → ℚ

/-- The two interpolators of `resample_to_spacing` that this development
covers: `order=0` (`sitkNearestNeighbor`) and `order=1` (`sitkLinear`), the
two orders the pipeline passes to that function.  The source has a third
case — `order≥2` selects `sitkBSpline` (preprocess.py line 125), and
`to_isotropic` uses `sitkBSpline` unconditionally — which is deliberately
absent from this type: its prefilter is not expressible in exact rational
arithmetic, so theorems over `InterpKind` quantify only over the
nearest/linear sub-case of resampling, never over the B-spline paths. -/
inductive InterpKind
  | nearest
  | linear

/-- ITK's half-integer-up rounding used by the nearest-neighbor
interpolator. -/
def roundHalfUp (q : ℚ) : ℤ := ⌊q + 1/2⌋

/-- Trilinear interpolation of the scalar field at a continuous index. -/
def trilinear (data : ℤ → ℤ → ℤ → ℚ) (c : Vec3) : ℚ :=
  let fx := ⌊c.1⌋
  let fy := ⌊c.2.1⌋
  let fz := ⌊c.2.2⌋
  let wx := c.1 - fx
  let wy := c.2.1 - fy
  let wz := c.2.2 - fz
  (1 - wx) * (1 - wy) * (1 - wz) * data fx fy fz +
  wx * (1 - wy) * (1 - wz) * data (fx + 1) fy fz +
  (1 - wx) * wy * (1 - wz) * data fx (fy + 1) fz +
  wx * wy * (1 - wz) * data (fx + 1) (fy + 1) fz +
  (1 - wx) * (1 - wy) * wz * data fx fy (fz + 1) +
  wx * (1 - wy) * wz * data (fx + 1) fy (fz + 1) +
  (1 - wx) * wy * wz * data fx (fy + 1) (fz + 1) +
  wx * wy * wz * data (fx + 1) (fy + 1) (fz + 1)

/-- Evaluate the selected interpolator at a continuous index. -/
def interpolateAt (img : VolumeImg) : InterpKind → Vec3 → ℚ
  | .nearest, c => img.data (roundHalfUp c.1) (roundHalfUp c.2.1) (roundHalfUp c.2.2)
  | .linear, c => trilinear img.data c

/-- ITK's continuous-index buffer test (`IsInsideBuffer`): within half a
voxel of the index range (the boundary convention only matters off-grid). -/
def insideBuffer (img : VolumeImg) (c : Vec3) : Prop :=
  -(1 : ℚ)/2 ≤ c.1 ∧ c.1 ≤ (img.size.1 : ℚ) - 1/2 ∧
  -(1 : ℚ)/2 ≤ c.2.1 ∧ c.2.1 ≤ (img.size.2.1 : ℚ) - 1/2 ∧
  -(1 : ℚ)/2 ≤ c.2.2 ∧ c.2.2 ≤ (img.size.2.2 : ℚ) - 1/2

instance (img : VolumeImg) (c : Vec3) : Decidable (insideBuffer img c) := by
  unfold insideBuffer; infer_instance

/-- `TransformPhysicalPointToContinuousIndex`: map a physical point back
through direction and origin, then divide by the spacing. -/
def physToCtsIndex (img : VolumeImg) (p : Vec3) : Vec3 :=
  let w := matInvVec img.direction (vecSub p img.origin)
  (w.1 / img.spacing.1, w.2.1 / img.spacing.2.1, w.2.2 / img.spacing.2.2)

/-- `resample_to_spacing` (preprocess.py lines 93-134) restricted to its
`order=0` / `order=1` calls (`InterpKind` has no constructor for the
`order≥2` `sitkBSpline` branch of line 125, so this definition does not
cover it, nor `to_isotropic`): new size `int(round(s * z / p))` per axis,
output geometry copied from the input (original direction, origin; spacing
set to the target), each output voxel sampled at the physical point of its
index (`origin + D · (target ∘ i)`) through the selected interpolator, with
default value 0 outside the input buffer.  (The
`SetOutputPixelType(sitkFloat32)` cast is value-preserving in this
real-valued model of the scalar field.) -/
def resample_to_spacing (img : VolumeImg) (target : Vec3) (interp : InterpKind) :
    VolumeImg :=
  let nsx := (pyRound ((img.size.1 : ℚ) * img.spacing.1 / target.1)).toNat
  let nsy := (pyRound ((img.size.2.1 : ℚ) * img.spacing.2.1 / target.2.1)).toNat
  let nsz := (pyRound ((img.size.2.2 : ℚ) * img.spacing.2.2 / target.2.2)).toNat
  { size := (nsx, nsy, nsz)
    spacing := target
    origin := img.origin
    direction := img.direction
    data := fun ix iy iz =>
      if 0 ≤ ix ∧ ix < (nsx : ℤ) ∧ 0 ≤ iy ∧ iy < (nsy : ℤ) ∧ 0 ≤ iz ∧ iz < (nsz : ℤ) then
        let p := vecAdd img.origin
          (matVec img.direction (vecMulC target ((ix : ℚ), (iy : ℚ), (iz : ℚ))))
        let c := physToCtsIndex img p
        if insideBuffer img c then interpolateAt img interp c else 0
      else 0 }


/-- The adjugate-based inverse really inverts: applying `matInvVec m` after
`matVec m` is the identity when the determinant is nonzero. -/
lemma matInvVec_matVec (m : Mat3) (v : Vec3) (hdet : matDet m ≠ 0) :
    matInvVec m (matVec m v) = v := by
  unfold matInvVec matVec
  refine Prod.ext ?_ (Prod.ext ?_ ?_) <;> dsimp only <;>
    rw [div_eq_iff hdet] <;> unfold matDet <;> ring

/-- Banker's rounding is the identity on naturals. -/
lemma pyRound_natCast (n : ℕ) : pyRound (n : ℚ) = n := by
  unfold pyRound
  rw [Int.floor_natCast]
  norm_num

/-- Half-up rounding is the identity on integers. -/
lemma roundHalfUp_intCast (n : ℤ) : roundHalfUp (n : ℚ) = n := by
  unfold roundHalfUp
  rw [Int.floor_eq_iff]
  constructor <;> linarith

/-- For the nearest/linear sub-case only: resampling a Volume to its
current spacing is the identity — the new size equals the old (the rounded
size ratio is exact), the geometry metadata (spacing, origin, direction) is
copied unchanged, and every voxel inside the extents keeps its exact value.
Hypotheses are the spec's Volume invariants: positive spacing and an
invertible direction matrix.  This covers exactly the two interpolators of
`InterpKind` and says nothing about the B-spline resampling paths. -/
theorem resample_same_spacing_id (img : VolumeImg) (interp : InterpKind)
    (hdet : matDet img.direction ≠ 0)
    (hsx : 0 < img.spacing.1) (hsy : 0 < img.spacing.2.1) (hsz : 0 < img.spacing.2.2) :
    (resample_to_spacing img img.spacing interp).size = img.size ∧
    (resample_to_spacing img img.spacing interp).spacing = img.spacing ∧
    (resample_to_spacing img img.spacing interp).origin = img.origin ∧
    (resample_to_spacing img img.spacing interp).direction = img.direction ∧
    ∀ ix iy iz : ℤ,
      0 ≤ ix → ix < (img.size.1 : ℤ) → 0 ≤ iy → iy < (img.size.2.1 : ℤ) →
      0 ≤ iz → iz < (img.size.2.2 : ℤ) →
      (resample_to_spacing img img.spacing interp).data ix iy iz = img.data ix iy iz := by
  have hns : ∀ (s : ℕ) (sp : ℚ), 0 < sp → (pyRound ((s : ℚ) * sp / sp)).toNat = s := by
    intro s sp hsp
    rw [mul_div_assoc, div_self (ne_of_gt hsp), mul_one, pyRound_natCast]
    exact Int.toNat_natCast s
  have hx := hns img.size.1 img.spacing.1 hsx
  have hy := hns img.size.2.1 img.spacing.2.1 hsy
  have hz := hns img.size.2.2 img.spacing.2.2 hsz
  refine ⟨?_, rfl, rfl, rfl, ?_⟩
  · show ((pyRound _).toNat, (pyRound _).toNat, (pyRound _).toNat) = img.size
    rw [hx, hy, hz]
  · intro ix iy iz h0x h1x h0y h1y h0z h1z
    show (if 0 ≤ ix ∧ ix < _ ∧ 0 ≤ iy ∧ iy < _ ∧ 0 ≤ iz ∧ iz < _ then _ else 0) = _
    rw [hx, hy, hz]
    rw [if_pos ⟨h0x, h1x, h0y, h1y, h0z, h1z⟩]
    have hc : physToCtsIndex img
        (vecAdd img.origin
          (matVec img.direction (vecMulC img.spacing ((ix : ℚ), (iy : ℚ), (iz : ℚ))))) =
        ((ix : ℚ), (iy : ℚ), (iz : ℚ)) := by
      unfold physToCtsIndex
      have hsub : vecSub
          (vecAdd img.origin
            (matVec img.direction (vecMulC img.spacing ((ix : ℚ), (iy : ℚ), (iz : ℚ)))))
          img.origin =
          matVec img.direction (vecMulC img.spacing ((ix : ℚ), (iy : ℚ), (iz : ℚ))) := by
        unfold vecSub vecAdd
        refine Prod.ext ?_ (Prod.ext ?_ ?_) <;> dsimp only <;> ring
      rw [hsub, matInvVec_matVec _ _ hdet]
      unfold vecMulC
      refine Prod.ext ?_ (Prod.ext ?_ ?_) <;> dsimp only
      · rw [mul_comm, mul_div_assoc, div_self (ne_of_gt hsx), mul_one]
      · rw [mul_comm, mul_div_assoc, div_self (ne_of_gt hsy), mul_one]
      · rw [mul_comm, mul_div_assoc, div_self (ne_of_gt hsz), mul_one]
    rw [hc]
    have cx0 : (0 : ℚ) ≤ (ix : ℚ) := by exact_mod_cast h0x
    have cy0 : (0 : ℚ) ≤ (iy : ℚ) := by exact_mod_cast h0y
    have cz0 : (0 : ℚ) ≤ (iz : ℚ) := by exact_mod_cast h0z
    have hx1 : ix + 1 ≤ (img.size.1 : ℤ) := by omega
    have hy1 : iy + 1 ≤ (img.size.2.1 : ℤ) := by omega
    have hz1 : iz + 1 ≤ (img.size.2.2 : ℤ) := by omega
    have cx1 : (ix : ℚ) + 1 ≤ (img.size.1 : ℚ) := by exact_mod_cast hx1
    have cy1 : (iy : ℚ) + 1 ≤ (img.size.2.1 : ℚ) := by exact_mod_cast hy1
    have cz1 : (iz : ℚ) + 1 ≤ (img.size.2.2 : ℚ) := by exact_mod_cast hz1
    have hin : insideBuffer img ((ix : ℚ), (iy : ℚ), (iz : ℚ)) := by
      unfold insideBuffer
      refine ⟨?_, ?_, ?_, ?_, ?_, ?_⟩ <;> dsimp only <;> linarith
    rw [if_pos hin]
    cases interp with
    | nearest =>
        show img.data (roundHalfUp _) (roundHalfUp _) (roundHalfUp _) = _
        rw [roundHalfUp_intCast, roundHalfUp_intCast, roundHalfUp_intCast]
    | linear =>
        show trilinear img.data _ = _
        unfold trilinear
        dsimp only
        simp only [Int.floor_intCast, sub_self]
        ring

/-- A single-voxel image with identity direction and unit spacing,
exercising the hypotheses of `resample_same_spacing_id`. -/
def volOne : VolumeImg :=
  { size := (1, 1, 1), spacing := (1, 1, 1), origin := (0, 0, 0),
    direction := matId, data := fun _ _ _ => 5 }

/-- The hypotheses of `resample_same_spacing_id` hold for `volOne` and the
voxel value at the origin index survives a same-spacing linear resample
unchanged. -/
theorem resample_same_spacing_id_example :
    matDet volOne.direction ≠ 0 ∧ 0 < volOne.spacing.1 ∧
    (resample_to_spacing volOne volOne.spacing InterpKind.linear).data 0 0 0 =
      volOne.data 0 0 0 :=
  ⟨by norm_num [volOne, matId, matDet],
   by norm_num [volOne],
   (resample_same_spacing_id volOne InterpKind.linear
      (by norm_num [volOne, matId, matDet])
      (by norm_num [volOne]) (by norm_num [volOne]) (by norm_num [volOne])).2.2.2.2
     0 0 0 (by norm_num) (by norm_num [volOne]) (by norm_num)
     (by norm_num [volOne]) (by norm_num) (by norm_num [volOne])⟩

/-- C5 (amended): the coverage-band post-condition holds only in the
upward direction.  On every successful run, any warned value is exactly the
final coverage of the returned mask and is strictly above the 8% band edge
(the still-too-high case after the aggressive reduction); and whenever the
final coverage lies strictly below the 0.8% band edge — the closing path of
the tuning — no warning at all is emitted, the out-of-band value is only
logged. -/
theorem c5_coverage_warning (vol : List FGrid) (out : List BGrid) (warns : List Fr)
    (h : segment_bone_25d vol = .ok (out, warns)) :
    (∀ w ∈ warns, w = finalCovOf vol out ∧ Fr.lt targetMaxCov w = true) ∧
    (Fr.lt (finalCovOf vol out) targetMinCov = true → warns = []) := by
  unfold segment_bone_25d at h
  cases hacc : segment_accepted vol with
  | error e =>
      rw [hacc] at h
      cases h
  | ok out0 =>
      rw [hacc] at h
      simp only at h
      split_ifs at h with h1 h2 h3
      · -- above band, still above after reduction: warns = [cov2]
        rw [Except.ok.injEq, Prod.mk.injEq] at h
        obtain ⟨hout, hwarns⟩ := h
        subst hout
        subst hwarns
        constructor
        · intro w hw
          simp only [List.mem_singleton] at hw
          subst hw
          exact ⟨rfl, h2⟩
        · intro hlow
          exfalso
          unfold finalCovOf at hlow
          simp only [Fr.lt, targetMaxCov, targetMinCov, decide_eq_true_eq] at h2 hlow
          omega
      · -- above band, reduced into band: no warning
        rw [Except.ok.injEq, Prod.mk.injEq] at h
        obtain ⟨hout, hwarns⟩ := h
        subst hout
        subst hwarns
        exact ⟨fun w hw => absurd hw (List.not_mem_nil w), fun _ => rfl⟩
      · -- below band: closing only, no warning
        rw [Except.ok.injEq, Prod.mk.injEq] at h
        obtain ⟨hout, hwarns⟩ := h
        subst hout
        subst hwarns
        exact ⟨fun w hw => absurd hw (List.not_mem_nil w), fun _ => rfl⟩
      · -- in band: unchanged, no warning
        rw [Except.ok.injEq, Prod.mk.injEq] at h
        obtain ⟨hout, hwarns⟩ := h
        subst hout
        subst hwarns
        exact ⟨fun w hw => absurd hw (List.not_mem_nil w), fun _ => rfl⟩

/-- Decidable equality for `Except`, used by the concrete witnesses. -/
instance exceptDecEq {e a : Type} [DecidableEq e] [DecidableEq a] :
    DecidableEq (Except e a)
  | .error x, .error y =>
      if h : x = y then .isTrue (h ▸ rfl) else .isFalse (fun hc => h (Except.error.inj hc))
  | .error _, .ok _ => .isFalse (fun hc => Except.noConfusion hc)
  | .ok _, .error _ => .isFalse (fun hc => Except.noConfusion hc)
  | .ok x, .ok y =>
      if h : x = y then .isTrue (h ▸ rfl) else .isFalse (fun hc => h (Except.ok.inj hc))

/-- Witness for the amended C5 statement at the concrete volume `vol5`
(whose run returns an all-empty stack with no warnings). -/
theorem c5_coverage_warning_witness :
    (∀ w ∈ ([] : List Fr), w = finalCovOf vol5 [mkBGrid 3 12 (fun _ _ => false)] ∧
      Fr.lt targetMaxCov w = true) ∧
    (Fr.lt (finalCovOf vol5 [mkBGrid 3 12 (fun _ _ => false)]) targetMinCov = true →
      ([] : List Fr) = []) :=
  c5_coverage_warning vol5 [mkBGrid 3 12 (fun _ _ => false)] [] (by decide)

/-- The unfolding equation of one retry iteration, for a symbolic fuel
successor. -/
lemma attempts_succ (inv grad : FGrid) (bm : BGrid) (prev : Option BGrid)
    (fuel : ℕ) (lowp gradp : ℤ) :
    attempts inv grad bm prev (fuel + 1) lowp gradp =
      (let cand := cand_at inv grad bm lowp gradp
       match prev with
       | none => cand
       | some p =>
           if overlapOKB cand p then cand
           else if fuel = 0 then cand
           else attempts inv grad bm prev fuel (max 5 (lowp - 3)) (min 95 (gradp + 5))) := rfl

/-- Unrolling the three retry attempts: with a previous accepted mask
present, the accepted candidate either passes the continuity test against
it or is exactly the third candidate, computed at the fully retightened
thresholds `(5, 95)`. -/
lemma attempts_third (inv grad : FGrid) (bm : BGrid) (p : BGrid) :
    overlapOKB (attempts inv grad bm (some p) 3 8 85) p = true ∨
    attempts inv grad bm (some p) 3 8 85 = cand_at inv grad bm 5 95 := by
  have e3 := attempts_succ inv grad bm (some p) 2 8 85
  have e2 := attempts_succ inv grad bm (some p) 1 5 90
  have e1 := attempts_succ inv grad bm (some p) 0 5 95
  dsimp only at e3 e2 e1
  rw [if_neg (by decide : ¬(2 : ℕ) = 0)] at e3
  rw [if_neg (by decide : ¬(1 : ℕ) = 0)] at e2
  rw [if_pos (rfl : (0 : ℕ) = 0)] at e1
  rw [show (max 5 (8 - 3) : ℤ) = 5 by norm_num,
    show (min 95 (85 + 5) : ℤ) = 90 by norm_num] at e3
  rw [show (max 5 (5 - 3) : ℤ) = 5 by norm_num,
    show (min 95 (90 + 5) : ℤ) = 95 by norm_num] at e2
  rw [ite_self] at e1
  have e21 : attempts inv grad bm (some p) 2 5 90 =
      if overlapOKB (cand_at inv grad bm 5 90) p then cand_at inv grad bm 5 90
      else cand_at inv grad bm 5 95 := by
    rw [e2, e1]
  rw [show (3 : ℕ) = 2 + 1 from rfl, e3]
  by_cases h1 : overlapOKB (cand_at inv grad bm 8 85) p = true
  · left
    rw [if_pos h1]
    exact h1
  · rw [if_neg h1, e21]
    by_cases h2 : overlapOKB (cand_at inv grad bm 5 90) p = true
    · left
      rw [if_pos h2]
      exact h2
    · rw [if_neg h2]
      right
      rfl

/-- One step of the slice loop: a successful run on a non-empty slice list
produces the head mask — the re-emitted previous candidate when the body
mask is empty, otherwise the retry-loop result — and recurses with that
mask as both the previous accepted mask and the candidate variable. -/
lemma runSlices_cons (sl : FGrid) (bm : BGrid) (rest : List (FGrid × BGrid))
    (prev cv : Option BGrid) (out : List BGrid)
    (h : runSlices ((sl, bm) :: rest) prev cv = .ok out) :
    ∃ c rest2, out = c :: rest2 ∧ runSlices rest (some c) (some c) = .ok rest2 ∧
      (bcount bm = 0 ∨ c = attempts (invOf sl) (gradOf (invOf sl)) bm prev 3 8 85) := by
  unfold runSlices at h
  by_cases hbm : bcount bm = 0
  · rw [if_pos hbm] at h
    cases cv with
    | none => cases h
    | some c =>
        dsimp only at h
        cases hr : runSlices rest (some c) (some c) with
        | error e =>
            rw [hr] at h
            cases h
        | ok r =>
            rw [hr] at h
            simp only [Except.map, Except.ok.injEq] at h
            exact ⟨c, r, h.symm, hr, Or.inl hbm⟩
  · rw [if_neg hbm] at h
    dsimp only at h
    cases hr : runSlices rest
        (some (attempts (invOf sl) (gradOf (invOf sl)) bm prev 3 8 85))
        (some (attempts (invOf sl) (gradOf (invOf sl)) bm prev 3 8 85)) with
    | error e =>
        rw [hr] at h
        cases h
    | ok r =>
        rw [hr] at h
        simp only [Except.map, Except.ok.injEq] at h
        exact ⟨_, r, h.symm, hr, Or.inr rfl⟩

/-- A successful slice loop returns one mask per slice. -/
lemma runSlices_length : ∀ (slices : List (FGrid × BGrid)) (prev cv : Option BGrid)
    (out : List BGrid), runSlices slices prev cv = .ok out → out.length = slices.length := by
  intro slices
  induction slices with
  | nil =>
      intro prev cv out h
      unfold runSlices at h
      rw [Except.ok.injEq] at h
      rw [← h]
      rfl
  | cons hd rest ih =>
      intro prev cv out h
      obtain ⟨sl, bm⟩ := hd
      obtain ⟨c, rest2, hout, hrest, -⟩ := runSlices_cons sl bm rest prev cv out h
      subst hout
      rw [List.length_cons, List.length_cons, ih (some c) (some c) rest2 hrest]

/-- Adjacent-slice relation of the slice loop: on a successful run, each
mask with a predecessor sits in a slice with an empty body mask, or passes
the 20% continuity test against the previous mask, or equals the third
retry candidate. -/
lemma runSlices_adjacent : ∀ (slices : List (FGrid × BGrid)) (prev cv : Option BGrid)
    (out : List BGrid), runSlices slices prev cv = .ok out →
    ∀ i, i + 1 < slices.length →
    bcount ((slices.getD (i + 1) ([], [])).2) = 0 ∨
    overlapOKB (out.getD (i + 1) []) (out.getD i []) = true ∨
    out.getD (i + 1) [] =
      cand_at (invOf (slices.getD (i + 1) ([], [])).1)
        (gradOf (invOf (slices.getD (i + 1) ([], [])).1))
        ((slices.getD (i + 1) ([], [])).2) 5 95 := by
  intro slices
  induction slices with
  | nil =>
      intro prev cv out h i hi
      cases hi
  | cons hd rest ih =>
      intro prev cv out h i hi
      obtain ⟨sl, bm⟩ := hd
      obtain ⟨c, rest2, hout, hrest, -⟩ := runSlices_cons sl bm rest prev cv out h
      subst hout
      cases i with
      | zero =>
          simp only [List.length_cons, Nat.add_lt_add_iff_right] at hi
          cases rest with
          | nil => cases hi
          | cons hd2 rest3 =>
              obtain ⟨sl2, bm2⟩ := hd2
              obtain ⟨c2, rest4, hout2, hrest2, hc2⟩ :=
                runSlices_cons sl2 bm2 rest3 (some c) (some c) rest2 hrest
              subst hout2
              simp only [List.getD_cons_succ, List.getD_cons_zero]
              cases hc2 with
              | inl hempty => exact Or.inl hempty
              | inr hatt =>
                  cases attempts_third (invOf sl2) (gradOf (invOf sl2)) bm2 c with
                  | inl hov =>
                      right
                      left
                      rw [hatt]
                      exact hov
                  | inr hthird =>
                      right
                      right
                      rw [hatt]
                      exact hthird
      | succ j =>
          simp only [List.length_cons, Nat.add_lt_add_iff_right] at hi
          have := ih (some c) (some c) rest2 hrest j hi
          simpa only [List.getD_cons_succ] using this

/-- C4 (amended): in the accepted mask stack of the 2.5D bone segmentation
(which the coverage tuning returns unchanged whenever the coverage is in
band), every slice with a predecessor either lies in a slice whose body
mask is empty (the loop re-emits the previous candidate), or overlaps the
previously accepted mask in at least 20% of that mask's area, or is the
third retry candidate — computed at the fully retightened thresholds
`(p_lo, p_gr) = (5, 95)` — accepted after the continuity test failed three
times. -/
theorem c4_slice_continuity (vol : List FGrid) (out : List BGrid)
    (h : segment_accepted vol = .ok out) (i : ℕ) (hi : i + 1 < out.length) :
    bcount (((vol.zip (bodyMasks vol)).getD (i + 1) ([], [])).2) = 0 ∨
    overlapOKB (out.getD (i + 1) []) (out.getD i []) = true ∨
    out.getD (i + 1) [] =
      cand_at (invOf ((vol.zip (bodyMasks vol)).getD (i + 1) ([], [])).1)
        (gradOf (invOf ((vol.zip (bodyMasks vol)).getD (i + 1) ([], [])).1))
        (((vol.zip (bodyMasks vol)).getD (i + 1) ([], [])).2) 5 95 := by
  unfold segment_accepted at h
  have hlen := runSlices_length (vol.zip (bodyMasks vol)) none none out h
  exact runSlices_adjacent (vol.zip (bodyMasks vol)) none none out h i (hlen ▸ hi)

/-- Witness for the amended C4 statement: on the small volume `volW` the
accepted stack is two empty masks; slice 1's body mask is non-empty and its
empty mask fails the continuity test, so the third disjunct (the
fully-retightened third candidate) is the one that holds. -/
theorem c4_slice_continuity_witness :
    bcount (((volW.zip (bodyMasks volW)).getD 1 ([], [])).2) = 0 ∨
    overlapOKB ([mkBGrid 2 3 (fun _ _ => false), mkBGrid 2 3 (fun _ _ => false)].getD 1 [])
      ([mkBGrid 2 3 (fun _ _ => false), mkBGrid 2 3 (fun _ _ => false)].getD 0 []) = true ∨
    [mkBGrid 2 3 (fun _ _ => false), mkBGrid 2 3 (fun _ _ => false)].getD 1 [] =
      cand_at (invOf ((volW.zip (bodyMasks volW)).getD 1 ([], [])).1)
        (gradOf (invOf ((volW.zip (bodyMasks volW)).getD 1 ([], [])).1))
        (((volW.zip (bodyMasks volW)).getD 1 ([], [])).2) 5 95 :=
  c4_slice_continuity volW
    [mkBGrid 2 3 (fun _ _ => false), mkBGrid 2 3 (fun _ _ => false)]
    (by decide) 0 (by decide)
